import Mathlib

/-!
Verification of the GTARP.PlayerCountTracker ingestion jobs.

This file shallowly embeds the two Python source files —
`api2db/python/api_ingest.py` (player-count job) and
`api2db/python/twitch_stream_ingest.py` (stream-ingest job) — and proves
the specification's claims about them.

Modelling conventions:
* JSON values are the inductive `Json`; JSON numbers are restricted to
  integers (the only numbers these programs handle are counts).
* Python dictionary and sequence operations that can raise are embedded as
  `Except PyErr _` computations: `d.get(k, default)` is `pyGetDefault`,
  `d.get(k)` is `pyGetNone`, `d[k]` is `pySubscript`, `l[i]` is `pyIndex`,
  iteration is `pyToList`, `str.lower()` on a JSON value is `pyLowerStr`.
* `requests` transport outcomes are `Except Unit Json`: `.error ()` models
  a raised `requests.RequestException` — a network failure, an HTTP error
  status surfaced by `raise_for_status()` (4xx/5xx), or a body that fails
  to parse in `response.json()` (`requests.JSONDecodeError` is a
  `RequestException`) — and `.ok body` models a response that passed
  `raise_for_status()` and parsed to `body`.  The player-count handler,
  whose claims distinguish status codes, instead models the status code
  and the parse outcome explicitly.
* The unbounded `while True` pagination loop is embedded with explicit
  fuel; running out of fuel is a distinguished outcome excluded by the
  theorems' hypotheses.
-/

/-- A JSON value.  Numbers are restricted to integers. -/
inductive Json where
  | null : Json
  | bool (b : Bool) : Json
  | num (n : Int) : Json
  | str (s : String) : Json
  | arr (elems : List Json) : Json
  | obj (fields : List (String × Json)) : Json

/-- Python exceptions that the embedded code can raise. -/
inductive PyErr where
  | keyError : PyErr
  | typeError : PyErr
  | attributeError : PyErr
  | indexError : PyErr
  | requestException : PyErr
  | valueError : PyErr
deriving DecidableEq

/-- First binding of `key` in a JSON object's field list (Python dicts hold
each key once, so on well-formed objects this is the dict lookup). -/
def jsonLookup (key : String) : List (String × Json) → Option Json
  | [] => none
  | (k, v) :: rest => if k = key then some v else jsonLookup key rest

/-- Python truthiness of a JSON value (`if x:`): `None`, `False`, `0`, `""`,
`[]` and `{}` are falsy, everything else is truthy. -/
def pyTruthy : Json → Bool
  | .null => false
  | .bool b => b
  | .num n => n != 0
  | .str s => !s.isEmpty
  | .arr [] => false
  | .arr (_ :: _) => true
  | .obj [] => false
  | .obj (_ :: _) => true

/-- Truthiness of an optional JSON value (`None` for `none`). -/
def pyTruthyOpt : Option Json → Bool
  | none => false
  | some v => pyTruthy v

/-- Python `d.get(key, default)`: on a dict, the bound value or the default;
on any non-dict value, `AttributeError` (no `.get` attribute). -/
def pyGetDefault (j : Json) (key : String) (default : Json) : Except PyErr Json :=
  match j with
  | .obj fields => .ok ((jsonLookup key fields).getD default)
  | _ => .error .attributeError

/-- Python `d.get(key)` (default `None`): on a dict, the bound value when
present; on any non-dict value, `AttributeError`. -/
def pyGetNone (j : Json) (key : String) : Except PyErr (Option Json) :=
  match j with
  | .obj fields => .ok (jsonLookup key fields)
  | _ => .error .attributeError

/-- Python `d[key]` with a string key: `KeyError` when the key is absent from
a dict, `TypeError` on non-dict values. -/
def pySubscript (j : Json) (key : String) : Except PyErr Json :=
  match j with
  | .obj fields =>
    match jsonLookup key fields with
    | some v => .ok v
    | none => .error .keyError
  | _ => .error .typeError

/-- Python `l[i]` with a non-negative integer index: element of a list,
one-character string of a string, `IndexError` out of range, `TypeError`
on other values. -/
def pyIndex (j : Json) (i : Nat) : Except PyErr Json :=
  match j with
  | .arr elems =>
    match elems.get? i with
    | some v => .ok v
    | none => .error .indexError
  | .str s =>
    match s.toList.get? i with
    | some c => .ok (.str (String.singleton c))
    | none => .error .indexError
  | _ => .error .typeError

/-- Python iteration `for x in j`: list elements, string characters, dict
keys; `TypeError` on `None`, booleans and numbers. -/
def pyToList (j : Json) : Except PyErr (List Json) :=
  match j with
  | .arr elems => .ok elems
  | .str s => .ok (s.toList.map fun c => .str (String.singleton c))
  | .obj fields => .ok (fields.map fun p => .str p.1)
  | _ => .error .typeError

/-- Python `s.lower()` (the sources only lower-case ASCII titles/keywords). -/
def pyLower (s : String) : String :=
  String.mk (s.toList.map Char.toLower)

/-- Python `j.lower()` on a JSON value: defined on strings only,
`AttributeError` otherwise. -/
def pyLowerStr (j : Json) : Except PyErr String :=
  match j with
  | .str s => .ok (pyLower s)
  | _ => .error .attributeError

/-- Whether `needle` is a leading segment of `haystack`. -/
def charsLeading : List Char → List Char → Bool
  | [], _ => true
  | _ :: _, [] => false
  | a :: as, b :: bs => a == b && charsLeading as bs

/-- Whether `needle` occurs contiguously anywhere in `haystack`. -/
def charsContain (needle : List Char) : List Char → Bool
  | [] => charsLeading needle []
  | b :: bs => charsLeading needle (b :: bs) || charsContain needle bs

/-- Python `needle in haystack` on strings: plain substring containment. -/
def pyInStr (needle haystack : String) : Bool :=
  charsContain needle.toList haystack.toList

/-- Truthiness of an environment-variable lookup result (`not value` in the
source): unset or empty-string values are falsy. -/
def pyStrTruthy : Option String → Bool
  | none => false
  | some s => !s.isEmpty

example : pyTruthy (.str "") = false := by decide
example : pyInStr "unscripted" (pyLower "Epic Unscripted RP") = true := by decide
example : pyInStr "unscripted" (pyLower "Scripted only") = false := by decide

/-- A single-quote character, used by Python `repr` of strings. -/
def squote : String := String.singleton (Char.ofNat 39)

mutual
/-- Python `repr` of a JSON value (as it appears inside an f-string for
containers; strings are single-quoted). -/
def pyRepr : Json → String
  | .null => "None"
  | .bool true => "True"
  | .bool false => "False"
  | .num n => toString n
  | .str s => squote ++ s ++ squote
  | .arr elems => "[" ++ pyReprSeq elems ++ "]"
  | .obj fields => "\x7b" ++ pyReprFields fields ++ "\x7d"

/-- Comma-separated `repr`s of list elements. -/
def pyReprSeq : List Json → String
  | [] => ""
  | [v] => pyRepr v
  | v :: w :: rest => pyRepr v ++ ", " ++ pyReprSeq (w :: rest)

/-- Comma-separated `repr`s of dict entries. -/
def pyReprFields : List (String × Json) → String
  | [] => ""
  | [(k, v)] => squote ++ k ++ squote ++ ": " ++ pyRepr v
  | (k, v) :: p :: rest =>
    squote ++ k ++ squote ++ ": " ++ pyRepr v ++ ", " ++ pyReprFields (p :: rest)
end

/-- Python `str` of a JSON value, as interpolated by an f-string: a bare
string is unquoted, every other value prints as its `repr`. -/
def pyStr : Json → String
  | .str s => s
  | v => pyRepr v

/-! ## Player-count job (`api2db/python/api_ingest.py`) -/

/-- `data.get("Data", \x7b\x7d).get("selfReportedClients", 0)` from
`handler.do_GET` (line 35). -/
def extract_player_count (data : Json) : Except PyErr Json := do
  let d ← pyGetDefault data "Data" (.obj [])
  pyGetDefault d "selfReportedClients" (.num 0)

/-- The row inserted into the `player_counts` table. -/
structure PlayerCountRecord where
  timestamp : String
  player_count : Json
  server_id : String

/-- The player-count handler's environment: the outcome of the upstream
`requests.get` — either a raised `RequestException`, or a response with its
status code and the outcome of `response.json()` — and whether the Supabase
insert succeeds. -/
structure ApiWorld where
  netResult : Except Unit (Nat × Except Unit Json)
  insertOk : Bool

/-- The handler's observable output: HTTP status, response body, and the row
inserted into `player_counts` (if any). -/
structure HttpOut where
  status : Nat
  body : String
  inserted : Option PlayerCountRecord

/-- `handler.do_GET`.  `ts` is the `datetime.utcnow().isoformat()` taken on
the success path (line 38), `tsErr` the one taken inside an `except` block,
and `emsg` the `str(e)` of whichever exception was caught.
`response.raise_for_status()` raises `requests.HTTPError` exactly for
status codes 400–599; a body that fails to parse raises
`requests.JSONDecodeError`, a `RequestException`, so both land in the first
`except` branch; errors during extraction or insert land in the blanket
`except Exception` branch. -/
def do_GET (w : ApiWorld) (ts tsErr emsg : String) : HttpOut :=
  match w.netResult with
  | .error _ =>
    ⟨500, "[" ++ tsErr ++ "] API request error: " ++ emsg, none⟩
  | .ok (status, parsed) =>
    if 400 ≤ status ∧ status < 600 then
      ⟨500, "[" ++ tsErr ++ "] API request error: " ++ emsg, none⟩
    else
      match parsed with
      | .error _ =>
        ⟨500, "[" ++ tsErr ++ "] API request error: " ++ emsg, none⟩
      | .ok data =>
        match extract_player_count data with
        | .error _ =>
          ⟨500, "[" ++ tsErr ++ "] Unexpected error: " ++ emsg, none⟩
        | .ok current_players =>
          if w.insertOk then
            ⟨200, "[" ++ ts ++ "] Successfully saved player count: " ++ pyStr current_players,
              some ⟨ts, current_players, "o3re8y"⟩⟩
          else
            ⟨500, "[" ++ tsErr ++ "] Unexpected error: " ++ emsg, none⟩

/-! ## Stream-ingest job (`api2db/python/twitch_stream_ingest.py`) -/

/-- The four environment variables `load_environment_variables` requires,
in the order the source dict lists them. -/
def required_vars : List String :=
  ["TWITCH_CLIENT_ID", "TWITCH_CLIENT_SECRET", "SUPABASE_URL", "SUPABASE_KEY"]

/-- `load_environment_variables`: reads the four required variables and
raises `ValueError` when any is unset or empty (`if not value`). -/
def load_environment_variables (env : String → Option String) :
    Except PyErr (List (String × Option String)) :=
  let vars := required_vars.map fun v => (v, env v)
  if vars.all fun p => pyStrTruthy p.2 then .ok vars else .error .valueError

/-- `get_twitch_oauth_token`: a transport failure (network error, 4xx/5xx
via `raise_for_status`, unparseable body) is logged and re-raised; otherwise
the function returns `response.json().get("access_token")`, which is `None`
when the field is absent — and raises `AttributeError` when the parsed body
is not a JSON object. -/
def get_twitch_oauth_token (resp : Except Unit Json) : Except PyErr (Option Json) :=
  match resp with
  | .error _ => .error .requestException
  | .ok body => pyGetNone body "access_token"

/-- `get_game_id`: a transport failure is caught and collapsed to `None`;
otherwise `data.get("data", [])` is taken, a truthy result yields
`games[0]["id"]` (whose lookup errors propagate uncaught), and a falsy one
yields `None`. -/
def get_game_id (resp : Except Unit Json) : Except PyErr (Option Json) :=
  match resp with
  | .error _ => .ok none
  | .ok data => do
    let games ← pyGetDefault data "data" (.arr [])
    if pyTruthy games then
      let first ← pyIndex games 0
      let gid ← pySubscript first "id"
      return some gid
    else
      return none

/-- The row built for the `twitch_streams` table.  The three fields copied
from the API entry are stored verbatim, without validation. -/
structure StreamRecord where
  streamer_name : Json
  stream_title : Json
  viewer_count : Json
  game_name : String
  serverId : String

/-- One iteration of the entry loop in `get_streams` (lines 87–95): test
`keyword.lower() in stream["title"].lower()` and, on a match, build the
record.  Field accesses use `[]` with no default, so a missing key raises
`KeyError`. -/
def process_entry (keyword : String) (stream : Json) : Except PyErr (Option StreamRecord) := do
  let title ← pySubscript stream "title"
  let titleLower ← pyLowerStr title
  if pyInStr (pyLower keyword) titleLower then
    let user ← pySubscript stream "user_name"
    let viewers ← pySubscript stream "viewer_count"
    return some ⟨user, title, viewers, "Grand Theft Auto V", "o3re8y"⟩
  else
    return none

/-- The entry loop of `get_streams` over one page's `data` list, in order;
the first raising entry aborts the loop with its error. -/
def collect_matches (keyword : String) : List Json → Except PyErr (List StreamRecord)
  | [] => .ok []
  | e :: rest => do
    let m ← process_entry keyword e
    let others ← collect_matches keyword rest
    match m with
    | some r => return r :: others
    | none => return others

/-- The body of one successful iteration of the pagination loop in
`get_streams`: filter the page's entries, then read
`data.get("pagination", \x7b\x7d).get("cursor")`. -/
def process_page (keyword : String) (data : Json) :
    Except PyErr (List StreamRecord × Option Json) := do
  let entriesVal ← pyGetDefault data "data" (.arr [])
  let entries ← pyToList entriesVal
  let matched ← collect_matches keyword entries
  let pagination ← pyGetDefault data "pagination" (.obj [])
  let cursor ← pyGetNone pagination "cursor"
  return (matched, cursor)

/-- Outcome of the `while True` pagination loop of `get_streams`:
`done` is a normal exit via `break` (transport error or missing cursor),
`raised` an uncaught exception propagating out of the loop, `outOfFuel` the
modelling artifact of exhausting fuel.  `requests` counts the page requests
issued. -/
inductive StreamsResult where
  | done (streams : List StreamRecord) (requests : Nat)
  | raised (e : PyErr) (requests : Nat)
  | outOfFuel (streams : List StreamRecord) (requests : Nat)

/-- The pagination loop of `get_streams`, with `pages i` the outcome of the
`i`-th page request (0-based), `i` the index of the next request to issue
and `acc` the matches accumulated so far.  A `RequestException` breaks the
loop keeping `acc`; a falsy cursor breaks the loop after accumulating the
page; a truthy cursor continues. -/
def get_streams_go (keyword : String) (pages : Nat → Except Unit Json) :
    Nat → Nat → List StreamRecord → StreamsResult
  | 0, i, acc => .outOfFuel acc i
  | fuel + 1, i, acc =>
    match pages i with
    | .error _ => .done acc (i + 1)
    | .ok data =>
      match process_page keyword data with
      | .error e => .raised e (i + 1)
      | .ok (matched, cursor) =>
        if pyTruthyOpt cursor then
          get_streams_go keyword pages fuel (i + 1) (acc ++ matched)
        else
          .done (acc ++ matched) (i + 1)

/-- `get_streams`: run the pagination loop from the first request with an
empty accumulator. -/
def get_streams (keyword : String) (pages : Nat → Except Unit Json) (fuel : Nat) :
    StreamsResult :=
  get_streams_go keyword pages fuel 0 []

/-- The insert loop of `log_to_supabase` (lines 113–121): rows are inserted
one at a time; the first failing insert raises, ending the loop (rows after
it are not attempted, rows before it stay inserted).  Returns the rows
inserted, the number of insert attempts, and whether a failure was caught. -/
def insert_rows (insertOk : Nat → Bool) : Nat → List StreamRecord → List StreamRecord × Nat × Bool
  | _, [] => ([], 0, false)
  | i, r :: rest =>
    if insertOk i then
      let (ins, attempts, failed) := insert_rows insertOk (i + 1) rest
      (r :: ins, attempts + 1, failed)
    else
      ([], 1, true)

/-- `log_to_supabase`: an empty match list skips the database entirely;
otherwise the insert loop runs inside `try/except`, so a failure is logged
and swallowed — the function always returns normally. -/
def log_to_supabase (streams : List StreamRecord) (insertOk : Nat → Bool) :
    List StreamRecord × Nat × Bool :=
  if streams.isEmpty then ([], 0, false)
  else insert_rows insertOk 0 streams

/-- The stream-ingest run's environment: the process environment variables
and the outcomes of the token request, the games-lookup request, each
streams-page request, and each row insert. -/
structure World where
  env : String → Option String
  tokenResp : Except Unit Json
  gameResp : Except Unit Json
  streamResp : Nat → Except Unit Json
  insertOk : Nat → Bool

/-- How a run of `main` ended: `completed` reached persistence, `noGameId`
returned early at `if not game_id`, `caughtError` hit the blanket
`except Exception` which logs and returns, `outOfFuel` is the modelling
artifact. -/
inductive Outcome where
  | completed
  | noGameId
  | caughtError
  | outOfFuel
deriving DecidableEq

/-- The observable trace of one stream-ingest run: how many requests were
issued to the token, games-lookup and streams endpoints, which rows were
inserted into `twitch_streams` (in order), how many inserts were attempted,
and how the run ended. -/
structure RunResult where
  tokenRequests : Nat
  gameRequests : Nat
  streamRequests : Nat
  insertedRows : List StreamRecord
  insertAttempts : Nat
  outcome : Outcome

/-- `main`: configuration load, token acquisition, game resolution, stream
pagination, persistence — with every raised exception caught by the final
blanket `except Exception` (which logs and returns).  The token and
games-lookup requests are issued, and so counted, even when they end in a
raise. -/
def main_run (w : World) (fuel : Nat) : RunResult :=
  match load_environment_variables w.env with
  | .error _ => ⟨0, 0, 0, [], 0, .caughtError⟩
  | .ok _env_vars =>
    match get_twitch_oauth_token w.tokenResp with
    | .error _ => ⟨1, 0, 0, [], 0, .caughtError⟩
    | .ok _token =>
      match get_game_id w.gameResp with
      | .error _ => ⟨1, 1, 0, [], 0, .caughtError⟩
      | .ok game_id =>
        if pyTruthyOpt game_id then
          match get_streams "unscripted" w.streamResp fuel with
          | .raised _ r => ⟨1, 1, r, [], 0, .caughtError⟩
          | .outOfFuel _ r => ⟨1, 1, r, [], 0, .outOfFuel⟩
          | .done streams r =>
            let (inserted, attempts, _failed) := log_to_supabase streams w.insertOk
            ⟨1, 1, r, inserted, attempts, .completed⟩
        else
          ⟨1, 1, 0, [], 0, .noGameId⟩

/-! ## Substring lemmas for the handler's response bodies -/

theorem charsLeading_self_append (n post : List Char) :
    charsLeading n (n ++ post) = true := by
  induction n with
  | nil => rfl
  | cons a as ih => simp [charsLeading, ih]

theorem charsLeading_append_right (n h post : List Char)
    (hl : charsLeading n h = true) : charsLeading n (h ++ post) = true := by
  induction n generalizing h with
  | nil => rfl
  | cons a as ih =>
    cases h with
    | nil => simp [charsLeading] at hl
    | cons b bs =>
      simp [charsLeading] at hl ⊢
      exact ⟨hl.1, ih bs hl.2⟩

theorem charsContain_nil_needle (h : List Char) : charsContain [] h = true := by
  cases h <;> simp [charsContain, charsLeading]

theorem charsContain_of_leading (n h : List Char)
    (hl : charsLeading n h = true) : charsContain n h = true := by
  cases h with
  | nil => exact hl
  | cons b bs => simp [charsContain, hl]

theorem charsContain_self_append (n post : List Char) :
    charsContain n (n ++ post) = true :=
  charsContain_of_leading _ _ (charsLeading_self_append n post)

theorem charsContain_cons (n h : List Char) (b : Char)
    (hc : charsContain n h = true) : charsContain n (b :: h) = true := by
  simp [charsContain, hc]

theorem charsContain_append_left (n pre h : List Char)
    (hc : charsContain n h = true) : charsContain n (pre ++ h) = true := by
  induction pre with
  | nil => exact hc
  | cons b bs ih => exact charsContain_cons _ _ _ ih

theorem charsContain_append_right (n h post : List Char)
    (hc : charsContain n h = true) : charsContain n (h ++ post) = true := by
  induction h with
  | nil =>
    cases n with
    | nil => exact charsContain_nil_needle post
    | cons a as => simp [charsContain, charsLeading] at hc
  | cons b bs ih =>
    simp [charsContain] at hc
    rcases hc with hl | hcc
    · exact charsContain_of_leading _ _
        (charsLeading_append_right n (b :: bs) post hl)
    · exact charsContain_cons _ _ _ (ih hcc)

theorem string_toList_append (a b : String) :
    (a ++ b).toList = a.toList ++ b.toList := by
  simp [String.toList, String.data_append]

theorem charsContain_self (n : List Char) : charsContain n n = true := by
  have h := charsContain_self_append n []
  rwa [List.append_nil] at h

/-- `needle in pre ++ needle ++ post` always holds. -/
theorem pyInStr_sandwich (n pre post : String) :
    pyInStr n (pre ++ n ++ post) = true := by
  unfold pyInStr
  rw [string_toList_append, string_toList_append]
  exact charsContain_append_right _ _ _
    (charsContain_append_left _ _ _ (charsContain_self _))

/-- A found substring survives surrounding text. -/
theorem pyInStr_extend (n h pre post : String) (hc : pyInStr n h = true) :
    pyInStr n (pre ++ h ++ post) = true := by
  unfold pyInStr at hc ⊢
  rw [string_toList_append, string_toList_append]
  exact charsContain_append_right _ _ _ (charsContain_append_left _ _ _ hc)

/-- Reduction of `Except` bind on a success value. -/
theorem except_bind_ok {e a b : Type} (x : a) (f : a → Except e b) :
    (Except.ok x : Except e a) >>= f = f x := rfl

/-- Reduction of `Except` bind on an error value. -/
theorem except_bind_error {e a b : Type} (err : e) (f : a → Except e b) :
    (Except.error err : Except e a) >>= f = .error err := rfl

/-! ## Claim theorems -/

/-- C1: for every API response body that is a JSON object, the player-count
extraction returns the value at `Data.selfReportedClients`, and returns 0
whenever the key `Data` is absent at the top level or the key
`selfReportedClients` is absent inside the `Data` object. -/
theorem extract_player_count_spec (fields : List (String × Json)) :
    (jsonLookup "Data" fields = none →
      extract_player_count (.obj fields) = .ok (.num 0)) ∧
    (∀ dfields : List (String × Json),
      jsonLookup "Data" fields = some (.obj dfields) →
        (jsonLookup "selfReportedClients" dfields = none →
          extract_player_count (.obj fields) = .ok (.num 0)) ∧
        (∀ v : Json, jsonLookup "selfReportedClients" dfields = some v →
          extract_player_count (.obj fields) = .ok v)) := by
  refine ⟨fun h => ?_, fun dfields h => ⟨fun h2 => ?_, fun v h2 => ?_⟩⟩
  · simp [extract_player_count, pyGetDefault, h, jsonLookup, except_bind_ok]
  · simp [extract_player_count, pyGetDefault, h, h2, except_bind_ok]
  · simp [extract_player_count, pyGetDefault, h, h2, except_bind_ok]

/-- Witness for C1 at a concrete body: present path, absent inner key, and
absent outer key. -/
theorem extract_player_count_spec_witness :
    extract_player_count
      (.obj [("Data", .obj [("selfReportedClients", .num 117)])]) =
      .ok (.num 117) :=
  ((extract_player_count_spec
      [("Data", .obj [("selfReportedClients", .num 117)])]).2
    [("selfReportedClients", .num 117)] rfl).2 (.num 117) rfl

/-- C9: on the single page holding exactly the two entries
(`Epic Unscripted RP` / Alice / 42) and (`Scripted only` / Bob / 5), with
keyword `unscripted` and no pagination cursor, the pagination step issues
one request and returns exactly one record: Alice with viewer count 42.
The keyword test is the case-insensitive substring match embodied in
`process_entry` (`pyInStr` on `pyLower`ed strings). -/
theorem get_streams_keyword_filter :
    get_streams "unscripted"
      (fun _ => .ok (.obj [("data", .arr [
        .obj [("title", .str "Epic Unscripted RP"), ("user_name", .str "Alice"),
              ("viewer_count", .num 42)],
        .obj [("title", .str "Scripted only"), ("user_name", .str "Bob"),
              ("viewer_count", .num 5)]])])) 2 =
      .done [⟨.str "Alice", .str "Epic Unscripted RP", .num 42,
             "Grand Theft Auto V", "o3re8y"⟩] 1 :=
  rfl

/-- Counterexample to C6 as stated: a 301 upstream status is not 2xx, yet
`raise_for_status()` raises only for 400–599, so with a parseable body and
a successful insert the handler answers 200 Success, not 500. -/
theorem do_GET_non2xx_succeeds :
    (do_GET ⟨.ok (301, .ok (.obj [])), true⟩ "T" "TE" "E").status = 200 ∧
    ¬ (200 ≤ 301 ∧ 301 < 300) :=
  ⟨rfl, by decide⟩

/-- Counterexample to C8 as stated: an entry with no game-name field at all
(but with title, user name and viewer count) is processed without any
error — the game name is the constant `"Grand Theft Auto V"`, never read
from the entry. -/
theorem process_entry_no_game_name_field_ok :
    process_entry "unscripted"
      (.obj [("title", .str "GTA unscripted fun"), ("user_name", .str "A"),
             ("viewer_count", .num 1)]) =
      .ok (some ⟨.str "A", .str "GTA unscripted fun", .num 1,
                 "Grand Theft Auto V", "o3re8y"⟩) :=
  rfl

/-- Counterexample to C10 as stated: when the token endpoint answers with a
success status whose parsed body is the JSON number 5 (not an object),
token acquisition raises `AttributeError` — a raise that is not a transport
error. -/
theorem get_twitch_oauth_token_nonobj_raises :
    get_twitch_oauth_token (.ok (.num 5)) = .error .attributeError ∧
    PyErr.attributeError ≠ PyErr.requestException :=
  ⟨rfl, by decide⟩

/-! ## Pagination loop lemmas -/

/-- Invariant of a normal exit of the pagination loop started at request
index `i`: at least one request is issued; every response except the last
was successfully processed and carried a truthy cursor; the last response
was a transport error or carried a falsy cursor. -/
theorem get_streams_go_done_inv (keyword : String) (pages : Nat → Except Unit Json) :
    ∀ (fuel i : Nat) (acc streams : List StreamRecord) (r : Nat),
      get_streams_go keyword pages fuel i acc = .done streams r →
      i < r ∧
      (∀ k, i ≤ k → k + 1 < r → ∃ dj mt cu,
        pages k = .ok dj ∧ process_page keyword dj = .ok (mt, cu) ∧
        pyTruthyOpt cu = true) ∧
      (pages (r - 1) = .error () ∨ ∃ dj mt cu,
        pages (r - 1) = .ok dj ∧ process_page keyword dj = .ok (mt, cu) ∧
        pyTruthyOpt cu = false) := by
  intro fuel
  induction fuel with
  | zero =>
    intro i acc streams r h
    simp [get_streams_go] at h
  | succ fuel ih =>
    intro i acc streams r h
    rw [get_streams_go] at h
    cases hp : pages i with
    | error u =>
      cases u
      rw [hp] at h
      simp only [StreamsResult.done.injEq] at h
      obtain ⟨rfl, rfl⟩ := h
      refine ⟨by omega, fun k hik hk => by omega, .inl ?_⟩
      simpa using hp
    | ok dj =>
      rw [hp] at h
      dsimp only at h
      cases hq : process_page keyword dj with
      | error e => rw [hq] at h; simp at h
      | ok pr =>
        obtain ⟨mt, cu⟩ := pr
        rw [hq] at h
        dsimp only at h
        by_cases hc : pyTruthyOpt cu = true
        · rw [if_pos hc] at h
          obtain ⟨h1, h2, h3⟩ := ih (i + 1) (acc ++ mt) streams r h
          refine ⟨by omega, fun k hik hk => ?_, h3⟩
          rcases eq_or_lt_of_le hik with heq | hlt
          · exact heq ▸ ⟨dj, mt, cu, hp, hq, hc⟩
          · exact h2 k (by omega) hk
        · rw [if_neg hc] at h
          simp only [StreamsResult.done.injEq] at h
          obtain ⟨rfl, rfl⟩ := h
          refine ⟨by omega, fun k hik hk => by omega, .inr ?_⟩
          exact ⟨dj, mt, cu, by simpa using hp, hq, by simpa using hc⟩

/-- Matches accumulated from pages `i, i+1, …, i+n-1`, in request order. -/
def matchesFrom (m : Nat → List StreamRecord) (i : Nat) : Nat → List StreamRecord
  | 0 => []
  | n + 1 => m i ++ matchesFrom m (i + 1) n

/-- Running the pagination loop from index `i` against `n` processable
pages with truthy cursors followed by a transport error: the loop breaks
after request `i+n`, keeping everything accumulated. -/
theorem get_streams_go_error_stop (keyword : String) (pages : Nat → Except Unit Json)
    (d : Nat → Json) (m : Nat → List StreamRecord) (c : Nat → Option Json) :
    ∀ (n fuel i : Nat) (acc : List StreamRecord), n < fuel →
      (∀ k, k < n → pages (i + k) = .ok (d (i + k)) ∧
        process_page keyword (d (i + k)) = .ok (m (i + k), c (i + k)) ∧
        pyTruthyOpt (c (i + k)) = true) →
      pages (i + n) = .error () →
      get_streams_go keyword pages fuel i acc =
        .done (acc ++ matchesFrom m i n) (i + n + 1) := by
  intro n
  induction n with
  | zero =>
    intro fuel i acc hf hgood herr
    obtain ⟨fuel, rfl⟩ : ∃ f, fuel = f + 1 := ⟨fuel - 1, by omega⟩
    rw [Nat.add_zero] at herr
    rw [get_streams_go, herr]
    simp [matchesFrom]
  | succ n ih =>
    intro fuel i acc hf hgood herr
    obtain ⟨fuel, rfl⟩ : ∃ f, fuel = f + 1 := ⟨fuel - 1, by omega⟩
    obtain ⟨hp, hq, hc⟩ := hgood 0 (Nat.succ_pos n)
    rw [Nat.add_zero] at hp hq hc
    rw [get_streams_go, hp]
    dsimp only
    rw [hq]
    dsimp only
    rw [if_pos hc]
    have step := ih fuel (i + 1) (acc ++ m i) (by omega)
      (fun k hk => by
        have h := hgood (k + 1) (by omega)
        rwa [show i + (k + 1) = i + 1 + k by omega] at h)
      (by rwa [show i + 1 + n = i + (n + 1) by omega])
    rw [step, List.append_assoc]
    have hr : i + 1 + n + 1 = i + (n + 1) + 1 := by omega
    rw [hr]
    rfl

/-! ## Persistence lemmas -/

theorem insert_rows_all_ok (g : Nat → Bool) (hg : ∀ j, g j = true) :
    ∀ (rows : List StreamRecord) (i : Nat),
      insert_rows g i rows = (rows, rows.length, false) := by
  intro rows
  induction rows with
  | nil => intro i; rfl
  | cons r rest ih => intro i; simp [insert_rows, hg i, ih (i + 1)]

theorem log_to_supabase_all_ok (streams : List StreamRecord) (g : Nat → Bool)
    (hg : ∀ j, g j = true) :
    log_to_supabase streams g = (streams, streams.length, false) := by
  cases streams with
  | nil => rfl
  | cons r rest => simp [log_to_supabase, insert_rows_all_ok g hg]

/-- The insert outcomes never influence control flow: a run's outcome and
request counts are unchanged under any reassignment of the insert results. -/
theorem main_run_insertOk_invariant (w : World) (g : Nat → Bool) (fuel : Nat) :
    (main_run { w with insertOk := g } fuel).outcome = (main_run w fuel).outcome ∧
    (main_run { w with insertOk := g } fuel).tokenRequests = (main_run w fuel).tokenRequests ∧
    (main_run { w with insertOk := g } fuel).gameRequests = (main_run w fuel).gameRequests ∧
    (main_run { w with insertOk := g } fuel).streamRequests = (main_run w fuel).streamRequests := by
  unfold main_run
  dsimp only
  cases load_environment_variables w.env with
  | error e => simp
  | ok cfg =>
    cases get_twitch_oauth_token w.tokenResp with
    | error e => simp
    | ok tok =>
      cases get_game_id w.gameResp with
      | error e => simp
      | ok gid =>
        by_cases hgid : pyTruthyOpt gid = true
        · simp only [hgid, if_true]
          cases get_streams "unscripted" w.streamResp fuel with
          | raised e r => simp
          | outOfFuel s r => simp
          | done streams r =>
            rcases hg1 : log_to_supabase streams g with ⟨a1, b1, f1⟩
            rcases hg2 : log_to_supabase streams w.insertOk with ⟨a2, b2, f2⟩
            simp [hg1, hg2]
        · simp [hgid]

/-- C2: when the pagination loop exits normally after `r` page requests,
every response before the last one was processed and carried a truthy
(non-empty) cursor — so a further request followed it — and the last
response was a transport error or carried an absent/falsy cursor — so no
request followed it.  Requests are issued consecutively, so this is the
claimed iff between "further page requested" and "previous response carried
a non-empty cursor" (transport errors aside). -/
theorem get_streams_pagination_iff (keyword : String) (pages : Nat → Except Unit Json)
    (fuel : Nat) (streams : List StreamRecord) (r : Nat)
    (h : get_streams keyword pages fuel = .done streams r) :
    1 ≤ r ∧
    (∀ k, k + 1 < r → ∃ dj mt cu,
      pages k = .ok dj ∧ process_page keyword dj = .ok (mt, cu) ∧
      pyTruthyOpt cu = true) ∧
    (pages (r - 1) = .error () ∨ ∃ dj mt cu,
      pages (r - 1) = .ok dj ∧ process_page keyword dj = .ok (mt, cu) ∧
      pyTruthyOpt cu = false) := by
  obtain ⟨h1, h2, h3⟩ := get_streams_go_done_inv keyword pages fuel 0 [] streams r h
  exact ⟨h1, fun k hk => h2 k (Nat.zero_le k) hk, h3⟩

/-- Witness for C2: a first-page transport error exits after exactly one
request. -/
theorem get_streams_pagination_iff_witness :
    1 ≤ 1 ∧
    (∀ k, k + 1 < 1 → ∃ dj mt cu,
      (fun _ => (Except.error () : Except Unit Json)) k = .ok dj ∧
      process_page "unscripted" dj = .ok (mt, cu) ∧
      pyTruthyOpt cu = true) ∧
    ((fun _ => (Except.error () : Except Unit Json)) (1 - 1) = .error () ∨
      ∃ dj mt cu,
        (fun _ => (Except.error () : Except Unit Json)) (1 - 1) = .ok dj ∧
        process_page "unscripted" dj = .ok (mt, cu) ∧
        pyTruthyOpt cu = false) :=
  get_streams_pagination_iff "unscripted" (fun _ => .error ()) 1 [] 1 rfl

/-- C3: if any one of the four required configuration values is unset or
empty, configuration load raises and the run aborts with zero requests to
the token, games-lookup and streams endpoints and zero database inserts. -/
theorem main_run_config_abort (w : World) (fuel : Nat) (name : String)
    (hmem : name ∈ required_vars) (hfalsy : pyStrTruthy (w.env name) = false) :
    load_environment_variables w.env = .error .valueError ∧
    main_run w fuel = ⟨0, 0, 0, [], 0, .caughtError⟩ := by
  have hall : ((required_vars.map fun v => (v, w.env v)).all fun p => pyStrTruthy p.2) = false := by
    by_contra hcon
    rw [Bool.not_eq_false, List.all_eq_true] at hcon
    have h := hcon (name, w.env name) (List.mem_map_of_mem _ hmem)
    rw [hfalsy] at h
    exact Bool.false_ne_true h
  have hload : load_environment_variables w.env = .error .valueError := by
    simp [load_environment_variables, hall]
  exact ⟨hload, by simp [main_run, hload]⟩

/-- Witness for C3: an environment missing `TWITCH_CLIENT_SECRET` (while
the other three are set) aborts with an all-zero trace. -/
theorem main_run_config_abort_witness :
    load_environment_variables
      (fun v => if v = "TWITCH_CLIENT_SECRET" then none else some "x") =
      .error .valueError ∧
    main_run
      ⟨fun v => if v = "TWITCH_CLIENT_SECRET" then none else some "x",
       .error (), .error (), fun _ => .error (), fun _ => true⟩ 3 =
      ⟨0, 0, 0, [], 0, .caughtError⟩ :=
  main_run_config_abort
    ⟨fun v => if v = "TWITCH_CLIENT_SECRET" then none else some "x",
     .error (), .error (), fun _ => .error (), fun _ => true⟩ 3
    "TWITCH_CLIENT_SECRET" (by simp [required_vars]) rfl

/-- C5: whenever game resolution yields `None` — which is what it yields
both when the lookup request fails outright and when the response carries
no results — the run stops there: the streams endpoint is never queried
and nothing is inserted. -/
theorem main_run_no_game_id (w : World) (fuel : Nat)
    (cfg : List (String × Option String)) (tok : Option Json)
    (henv : load_environment_variables w.env = .ok cfg)
    (htok : get_twitch_oauth_token w.tokenResp = .ok tok)
    (hgame : get_game_id w.gameResp = .ok none) :
    get_game_id (.error ()) = (.ok none : Except PyErr (Option Json)) ∧
    (∀ fields : List (String × Json), jsonLookup "data" fields = some (.arr []) →
      get_game_id (.ok (.obj fields)) = .ok none) ∧
    main_run w fuel = ⟨1, 1, 0, [], 0, .noGameId⟩ := by
  refine ⟨rfl, fun fields hf => ?_, ?_⟩
  · simp [get_game_id, pyGetDefault, hf, pyTruthy, except_bind_ok, pure, Except.pure]
  · simp [main_run, henv, htok, hgame, pyTruthyOpt]

/-- Witness for C5: a run whose games lookup suffers a transport error
(collapsed to `None`) issues zero stream requests and inserts nothing. -/
theorem main_run_no_game_id_witness :
    get_game_id (.error ()) = (.ok none : Except PyErr (Option Json)) ∧
    (∀ fields : List (String × Json), jsonLookup "data" fields = some (.arr []) →
      get_game_id (.ok (.obj fields)) = .ok none) ∧
    main_run
      ⟨fun _ => some "x", .ok (.obj [("access_token", .str "t")]), .error (),
       fun _ => .error (), fun _ => true⟩ 3 =
      ⟨1, 1, 0, [], 0, .noGameId⟩ :=
  main_run_no_game_id
    ⟨fun _ => some "x", .ok (.obj [("access_token", .str "t")]), .error (),
     fun _ => .error (), fun _ => true⟩ 3
    [("TWITCH_CLIENT_ID", some "x"), ("TWITCH_CLIENT_SECRET", some "x"),
     ("SUPABASE_URL", some "x"), ("SUPABASE_KEY", some "x")]
    (some (.str "t")) rfl rfl rfl

theorem insert_rows_fail_at (g : Nat → Bool) :
    ∀ (rows : List StreamRecord) (j i : Nat), j < rows.length →
      (∀ k, k < j → g (i + k) = true) → g (i + j) = false →
      insert_rows g i rows = (rows.take j, j + 1, true) := by
  intro rows
  induction rows with
  | nil =>
    intro j i hj
    simp at hj
  | cons r rest ih =>
    intro j i hj hok hfail
    cases j with
    | zero =>
      rw [Nat.add_zero] at hfail
      simp [insert_rows, hfail]
    | succ j =>
      have h0 : g i = true := by
        have h := hok 0 (Nat.succ_pos j)
        rwa [Nat.add_zero] at h
      have step := ih j (i + 1) (by simpa using hj)
        (fun k hk => by
          have h := hok (k + 1) (by omega)
          rwa [show i + (k + 1) = i + 1 + k by omega] at h)
        (by rwa [show i + 1 + j = i + (j + 1) by omega])
      simp [insert_rows, h0, step]

/-- C4: when the first `n-1` page requests succeed with truthy cursors and
request `n` (1-based) hits a transport error, pagination stops at exactly
`n` requests, returns the matches of pages `1..n-1` in order, and — with
the database accepting inserts — exactly those matches are inserted, none
discarded, and the run completes normally. -/
theorem main_run_transport_truncation (w : World) (fuel n : Nat)
    (cfg : List (String × Option String)) (tok gid : Option Json)
    (d : Nat → Json) (m : Nat → List StreamRecord) (c : Nat → Option Json)
    (henv : load_environment_variables w.env = .ok cfg)
    (htok : get_twitch_oauth_token w.tokenResp = .ok tok)
    (hgame : get_game_id w.gameResp = .ok gid)
    (hgid : pyTruthyOpt gid = true)
    (hn : 1 ≤ n) (hfuel : n ≤ fuel)
    (hgood : ∀ k, k < n - 1 → w.streamResp k = .ok (d k) ∧
      process_page "unscripted" (d k) = .ok (m k, c k) ∧ pyTruthyOpt (c k) = true)
    (herr : w.streamResp (n - 1) = .error ())
    (hins : ∀ i, w.insertOk i = true) :
    get_streams "unscripted" w.streamResp fuel = .done (matchesFrom m 0 (n - 1)) n ∧
    main_run w fuel = ⟨1, 1, n, matchesFrom m 0 (n - 1),
      (matchesFrom m 0 (n - 1)).length, .completed⟩ := by
  have hstreams : get_streams_go "unscripted" w.streamResp fuel 0 [] =
      .done ([] ++ matchesFrom m 0 (n - 1)) (0 + (n - 1) + 1) :=
    get_streams_go_error_stop "unscripted" w.streamResp d m c (n - 1) fuel 0 []
      (by omega)
      (fun k hk => by simpa using hgood k hk)
      (by simpa using herr)
  rw [List.nil_append, show 0 + (n - 1) + 1 = n by omega] at hstreams
  refine ⟨hstreams, ?_⟩
  have hget : get_streams "unscripted" w.streamResp fuel =
      .done (matchesFrom m 0 (n - 1)) n := hstreams
  simp [main_run, henv, htok, hgame, hgid, hget,
    log_to_supabase_all_ok (matchesFrom m 0 (n - 1)) w.insertOk hins]

/-- The matching record of the witness page for C4. -/
def c4record : StreamRecord :=
  ⟨.str "Alice", .str "Epic Unscripted RP", .num 42, "Grand Theft Auto V", "o3re8y"⟩

/-- A witness streams page for C4: one matching entry and a cursor. -/
def c4page : Json :=
  .obj [("data", .arr [.obj [("title", .str "Epic Unscripted RP"),
                             ("user_name", .str "Alice"),
                             ("viewer_count", .num 42)]]),
        ("pagination", .obj [("cursor", .str "c1")])]

/-- The witness world for C4: pages 1 and 2 succeed, page 3 fails. -/
def c4world : World :=
  ⟨fun _ => some "x",
   .ok (.obj [("access_token", .str "t")]),
   .ok (.obj [("data", .arr [.obj [("id", .str "32982")]])]),
   fun k => if k < 2 then .ok c4page else .error (),
   fun _ => true⟩

/-- Witness for C4 at n = 3: a transport error on page 3 keeps and inserts
the two matches of pages 1–2 and issues exactly 3 page requests. -/
theorem main_run_transport_truncation_witness :
    get_streams "unscripted" c4world.streamResp 5 =
      .done (matchesFrom (fun _ => [c4record]) 0 2) 3 ∧
    main_run c4world 5 = ⟨1, 1, 3, matchesFrom (fun _ => [c4record]) 0 2,
      (matchesFrom (fun _ => [c4record]) 0 2).length, .completed⟩ :=
  main_run_transport_truncation c4world 5 3
    [("TWITCH_CLIENT_ID", some "x"), ("TWITCH_CLIENT_SECRET", some "x"),
     ("SUPABASE_URL", some "x"), ("SUPABASE_KEY", some "x")]
    (some (.str "t")) (some (.str "32982"))
    (fun _ => c4page) (fun _ => [c4record]) (fun _ => some (.str "c1"))
    rfl rfl rfl rfl (by omega) (by omega)
    (fun k hk => ⟨by simp [c4world, hk], rfl, rfl⟩)
    rfl (fun _ => rfl)

/-- C7: with a non-empty match list, (1) if every insert succeeds each
matched stream is inserted as exactly one row; (2) if insert `j` fails
after `j` successes, the failure is caught (the function returns normally
with the failure logged), rows `0..j-1` remain inserted and nothing is
rolled back; and (3) insert outcomes never change how the run ends — an
insert failure cannot crash the run. -/
theorem log_to_supabase_spec (streams : List StreamRecord) (g : Nat → Bool)
    (hne : streams ≠ []) :
    ((∀ i, g i = true) → log_to_supabase streams g = (streams, streams.length, false)) ∧
    (∀ j, j < streams.length → (∀ i, i < j → g i = true) → g j = false →
      log_to_supabase streams g = (streams.take j, j + 1, true)) ∧
    (∀ (w : World) (fuel : Nat) (g2 : Nat → Bool),
      (main_run { w with insertOk := g2 } fuel).outcome = (main_run w fuel).outcome) := by
  refine ⟨fun hall => log_to_supabase_all_ok streams g hall,
    fun j hj hok hfail => ?_,
    fun w fuel g2 => (main_run_insertOk_invariant w g2 fuel).1⟩
  have hlog : log_to_supabase streams g = insert_rows g 0 streams := by
    cases streams with
    | nil => exact absurd rfl hne
    | cons a b => simp [log_to_supabase]
  rw [hlog]
  exact insert_rows_fail_at g streams j 0 hj
    (fun k hk => by simpa using hok k hk) (by simpa using hfail)

/-- A second record for the C7 witness. -/
def c7record : StreamRecord :=
  ⟨.str "Bob", .str "unscripted too", .num 5, "Grand Theft Auto V", "o3re8y"⟩

/-- Witness for C7: two matches with the second insert failing — the first
row stays, the loop stops after two attempts, and the failure is caught. -/
theorem log_to_supabase_spec_witness :
    ((∀ i, (fun i => decide (i = 0)) i = true) →
      log_to_supabase [c4record, c7record] (fun i => decide (i = 0)) =
        ([c4record, c7record], [c4record, c7record].length, false)) ∧
    (∀ j, j < [c4record, c7record].length →
      (∀ i, i < j → (fun i => decide (i = 0)) i = true) →
      (fun i => decide (i = 0)) j = false →
      log_to_supabase [c4record, c7record] (fun i => decide (i = 0)) =
        ([c4record, c7record].take j, j + 1, true)) ∧
    (∀ (w : World) (fuel : Nat) (g2 : Nat → Bool),
      (main_run { w with insertOk := g2 } fuel).outcome = (main_run w fuel).outcome) :=
  log_to_supabase_spec [c4record, c7record] (fun i => decide (i = 0))
    (List.cons_ne_nil _ _)

/-- C8 (amended): an entry lacking the title field is a fatal data-shape
error — the access is a `[]` subscript with no default, raising `KeyError`;
the failure is not caught by the pagination loop's transport-error handler
but propagates out of the pagination step as a run failure (the run ends
via the blanket handler with nothing inserted) rather than being skipped
or defaulted.  The game-name field is never read from entries — the stored
game name is a constant — so its absence is harmless. -/
theorem missing_title_fatal :
    (∀ (kw : String) (fields : List (String × Json)),
      jsonLookup "title" fields = none →
      process_entry kw (.obj fields) = .error .keyError) ∧
    (∀ (kw : String) (pages : Nat → Except Unit Json) (fuel : Nat) (dj : Json) (e : PyErr),
      0 < fuel → pages 0 = .ok dj → process_page kw dj = .error e →
      get_streams kw pages fuel = .raised e 1) ∧
    (∀ (w : World) (fuel : Nat) (cfg : List (String × Option String))
        (tok gid : Option Json) (e : PyErr) (r : Nat),
      load_environment_variables w.env = .ok cfg →
      get_twitch_oauth_token w.tokenResp = .ok tok →
      get_game_id w.gameResp = .ok gid → pyTruthyOpt gid = true →
      get_streams "unscripted" w.streamResp fuel = .raised e r →
      main_run w fuel = ⟨1, 1, r, [], 0, .caughtError⟩) := by
  refine ⟨fun kw fields h => ?_,
    fun kw pages fuel dj e hf hp hq => ?_,
    fun w fuel cfg tok gid e r henv htok hgame hgid hs => ?_⟩
  · simp [process_entry, pySubscript, h, except_bind_error]
  · obtain ⟨fuel, rfl⟩ : ∃ f, fuel = f + 1 := ⟨fuel - 1, by omega⟩
    rw [get_streams, get_streams_go, hp]
    dsimp only
    rw [hq]
  · simp [main_run, henv, htok, hgame, hgid, hs]

/-- The witness world for C8: a well-formed run whose first streams page
has a malformed `data` value, so page processing raises. -/
def c8world : World :=
  ⟨fun _ => some "x",
   .ok (.obj [("access_token", .str "t")]),
   .ok (.obj [("data", .arr [.obj [("id", .str "32982")]])]),
   fun _ => .ok (.obj [("data", .num 3)]),
   fun _ => true⟩

/-- Witness for C8: a missing title raises `KeyError`; a raising page stops
pagination after one request; and the raise ends the run with nothing
inserted. -/
theorem missing_title_fatal_witness :
    process_entry "unscripted" (.obj []) = .error .keyError ∧
    get_streams "unscripted" c8world.streamResp 2 = .raised .typeError 1 ∧
    main_run c8world 2 = ⟨1, 1, 1, [], 0, .caughtError⟩ :=
  ⟨missing_title_fatal.1 "unscripted" [] rfl,
   missing_title_fatal.2.1 "unscripted" c8world.streamResp 2
     (.obj [("data", .num 3)]) .typeError (by omega) rfl rfl,
   missing_title_fatal.2.2 c8world 2
     [("TWITCH_CLIENT_ID", some "x"), ("TWITCH_CLIENT_SECRET", some "x"),
      ("SUPABASE_URL", some "x"), ("SUPABASE_KEY", some "x")]
     (some (.str "t")) (some (.str "32982")) .typeError 1
     rfl rfl rfl rfl
     (missing_title_fatal.2.1 "unscripted" c8world.streamResp 2
       (.obj [("data", .num 3)]) .typeError (by omega) rfl rfl)⟩

/-- C10 (amended): token acquisition re-raises on transport errors and also
raises (`AttributeError`) when the success body is not a JSON object; when
the success body is a JSON object lacking `access_token`, it returns `None`
without raising, and the run proceeds to game resolution — the games
request is issued — using `None` as the bearer token. -/
theorem get_twitch_oauth_token_spec (w : World) (fuel : Nat)
    (cfg : List (String × Option String)) (fields : List (String × Json))
    (henv : load_environment_variables w.env = .ok cfg)
    (hbody : w.tokenResp = .ok (.obj fields))
    (hmiss : jsonLookup "access_token" fields = none) :
    get_twitch_oauth_token (.error ()) =
      (.error .requestException : Except PyErr (Option Json)) ∧
    (∀ b : Json, (∀ fl : List (String × Json), b ≠ .obj fl) →
      get_twitch_oauth_token (.ok b) = .error .attributeError) ∧
    get_twitch_oauth_token w.tokenResp = .ok none ∧
    (main_run w fuel).gameRequests = 1 := by
  have htok : get_twitch_oauth_token w.tokenResp = .ok none := by
    rw [hbody]
    simp [get_twitch_oauth_token, pyGetNone, hmiss]
  refine ⟨rfl, fun b hb => ?_, htok, ?_⟩
  · cases b with
    | obj fl => exact absurd rfl (hb fl)
    | null => rfl
    | bool x => rfl
    | num x => rfl
    | str x => rfl
    | arr x => rfl
  · simp only [main_run, henv, htok]
    cases get_game_id w.gameResp with
    | error e => simp
    | ok gid =>
      by_cases hgid : pyTruthyOpt gid = true
      · simp only [hgid, if_true]
        cases get_streams "unscripted" w.streamResp fuel with
        | done streams r =>
          rcases hl : log_to_supabase streams w.insertOk with ⟨a, b2, f⟩
          simp [hl]
        | raised e r => simp
        | outOfFuel s r => simp
      · simp [hgid]

/-- The witness world for C10: a token response that is an object without
`access_token`, and a games lookup that fails in transport. -/
def c10world : World :=
  ⟨fun _ => some "x", .ok (.obj []), .error (), fun _ => .error (), fun _ => true⟩

/-- Witness for C10 at a token body `\x7b\x7d`: the token step returns
`None` and the games request is still issued. -/
theorem get_twitch_oauth_token_spec_witness :
    get_twitch_oauth_token (.error ()) =
      (.error .requestException : Except PyErr (Option Json)) ∧
    (∀ b : Json, (∀ fl : List (String × Json), b ≠ .obj fl) →
      get_twitch_oauth_token (.ok b) = .error .attributeError) ∧
    get_twitch_oauth_token c10world.tokenResp = .ok none ∧
    (main_run c10world 2).gameRequests = 1 :=
  get_twitch_oauth_token_spec c10world 2
    [("TWITCH_CLIENT_ID", some "x"), ("TWITCH_CLIENT_SECRET", some "x"),
     ("SUPABASE_URL", some "x"), ("SUPABASE_KEY", some "x")]
    [] rfl rfl rfl

theorem pyInStr_self (n : String) : pyInStr n n = true :=
  charsContain_self n.toList

theorem pyInStr_right (n pre rest : String) (h : pyInStr n rest = true) :
    pyInStr n (pre ++ rest) = true := by
  unfold pyInStr at h ⊢
  rw [string_toList_append]
  exact charsContain_append_left _ _ _ h

theorem pyInStr_left (n rest post : String) (h : pyInStr n rest = true) :
    pyInStr n (rest ++ post) = true := by
  unfold pyInStr at h ⊢
  rw [string_toList_append]
  exact charsContain_append_right _ _ _ h

/-- C6 (amended): a 4xx/5xx upstream status — the range `raise_for_status`
raises for — yields a 500 response whose body contains the word "error"
and the timestamp; a 2xx upstream response whose body parses, whose
extraction succeeds and whose insert succeeds yields a 200 response whose
body contains the extracted count; the handler answers only 200 or 500;
and every 500 body carries the timestamp, the word "error" and the error
description.  (Statuses outside 2xx that are not 4xx/5xx pass the status
check and can still produce a 200 — see the counterexample.) -/
theorem do_GET_spec (w : ApiWorld) (ts tsErr emsg : String) :
    (∀ (status : Nat) (parsed : Except Unit Json),
      w.netResult = .ok (status, parsed) → 400 ≤ status → status < 600 →
      (do_GET w ts tsErr emsg).status = 500 ∧
      pyInStr "error" (do_GET w ts tsErr emsg).body = true ∧
      pyInStr tsErr (do_GET w ts tsErr emsg).body = true) ∧
    (∀ (status : Nat) (data v : Json),
      w.netResult = .ok (status, .ok data) → 200 ≤ status → status < 300 →
      extract_player_count data = .ok v → w.insertOk = true →
      (do_GET w ts tsErr emsg).status = 200 ∧
      pyInStr (pyStr v) (do_GET w ts tsErr emsg).body = true) ∧
    ((do_GET w ts tsErr emsg).status = 200 ∨ (do_GET w ts tsErr emsg).status = 500) ∧
    ((do_GET w ts tsErr emsg).status = 500 →
      pyInStr tsErr (do_GET w ts tsErr emsg).body = true ∧
      pyInStr "error" (do_GET w ts tsErr emsg).body = true ∧
      pyInStr emsg (do_GET w ts tsErr emsg).body = true) := by
  have hts : ∀ lit : String, pyInStr tsErr ("[" ++ tsErr ++ lit ++ emsg) = true :=
    fun lit => pyInStr_left _ _ _ (pyInStr_left _ _ _
      (pyInStr_right _ _ _ (pyInStr_self tsErr)))
  have hemsg : ∀ lit : String, pyInStr emsg ("[" ++ tsErr ++ lit ++ emsg) = true :=
    fun lit => pyInStr_right _ _ _ (pyInStr_self emsg)
  have herrA : pyInStr "error" ("[" ++ tsErr ++ "] API request error: " ++ emsg) = true :=
    pyInStr_left _ _ _ (pyInStr_right _ _ _ (by decide))
  have herrU : pyInStr "error" ("[" ++ tsErr ++ "] Unexpected error: " ++ emsg) = true :=
    pyInStr_left _ _ _ (pyInStr_right _ _ _ (by decide))
  have hcnt : ∀ v : Json,
      pyInStr (pyStr v) ("[" ++ ts ++ "] Successfully saved player count: " ++ pyStr v) = true :=
    fun v => pyInStr_right _ _ _ (pyInStr_self _)
  obtain ⟨net, ins⟩ := w
  cases net with
  | error u =>
    exact ⟨fun status parsed hok _ _ => Except.noConfusion hok,
           fun status dta v hok _ _ _ _ => Except.noConfusion hok,
           .inr rfl, fun _ => ⟨hts _, herrA, hemsg _⟩⟩
  | ok p =>
    obtain ⟨status, parsed⟩ := p
    by_cases hst : 400 ≤ status ∧ status < 600
    · have hR : do_GET ⟨.ok (status, parsed), ins⟩ ts tsErr emsg =
          ⟨500, "[" ++ tsErr ++ "] API request error: " ++ emsg, none⟩ := by
        simp [do_GET, hst]
      refine ⟨fun s' p' hok h4 h6 => ?_, fun s' dta v hok h2 h3 hex hinsk => ?_,
        .inr (by rw [hR]), fun _ => by rw [hR]; exact ⟨hts _, herrA, hemsg _⟩⟩
      · rw [hR]
        exact ⟨rfl, herrA, hts _⟩
      · have h1 : status = s' ∧ parsed = Except.ok dta := by simpa using hok
        obtain ⟨heq, -⟩ := h1
        subst heq
        exact absurd h3 (by omega)
    · cases parsed with
      | error u2 =>
        have hR : do_GET ⟨.ok (status, .error u2), ins⟩ ts tsErr emsg =
            ⟨500, "[" ++ tsErr ++ "] API request error: " ++ emsg, none⟩ := by
          simp [do_GET, hst]
        refine ⟨fun s' p' hok h4 h6 => ?_, fun s' dta v hok h2 h3 hex hinsk => ?_,
          .inr (by rw [hR]), fun _ => by rw [hR]; exact ⟨hts _, herrA, hemsg _⟩⟩
        · have h1 : status = s' ∧ (Except.error u2 : Except Unit Json) = p' := by
            simpa using hok
          obtain ⟨heq, -⟩ := h1
          subst heq
          exact absurd ⟨h4, h6⟩ hst
        · simp at hok
      | ok dta0 =>
        cases hex0 : extract_player_count dta0 with
        | error e2 =>
          have hR : do_GET ⟨.ok (status, .ok dta0), ins⟩ ts tsErr emsg =
              ⟨500, "[" ++ tsErr ++ "] Unexpected error: " ++ emsg, none⟩ := by
            simp [do_GET, hst, hex0]
          refine ⟨fun s' p' hok h4 h6 => ?_, fun s' dta v hok h2 h3 hex hinsk => ?_,
            .inr (by rw [hR]), fun _ => by rw [hR]; exact ⟨hts _, herrU, hemsg _⟩⟩
          · have h1 : status = s' ∧ (Except.ok dta0 : Except Unit Json) = p' := by
              simpa using hok
            obtain ⟨heq, -⟩ := h1
            subst heq
            exact absurd ⟨h4, h6⟩ hst
          · have h1 : status = s' ∧ dta0 = dta := by simpa using hok
            obtain ⟨-, hd⟩ := h1
            rw [hd] at hex0
            rw [hex0] at hex
            exact Except.noConfusion hex
        | ok v0 =>
          cases ins with
          | false =>
            have hR : do_GET ⟨.ok (status, .ok dta0), false⟩ ts tsErr emsg =
                ⟨500, "[" ++ tsErr ++ "] Unexpected error: " ++ emsg, none⟩ := by
              simp [do_GET, hst, hex0]
            refine ⟨fun s' p' hok h4 h6 => ?_, fun s' dta v hok h2 h3 hex hinsk => ?_,
              .inr (by rw [hR]), fun _ => by rw [hR]; exact ⟨hts _, herrU, hemsg _⟩⟩
            · have h1 : status = s' ∧ (Except.ok dta0 : Except Unit Json) = p' := by
                simpa using hok
              obtain ⟨heq, -⟩ := h1
              subst heq
              exact absurd ⟨h4, h6⟩ hst
            · exact Bool.noConfusion hinsk
          | true =>
            have hR : do_GET ⟨.ok (status, .ok dta0), true⟩ ts tsErr emsg =
                ⟨200, "[" ++ ts ++ "] Successfully saved player count: " ++ pyStr v0,
                 some ⟨ts, v0, "o3re8y"⟩⟩ := by
              simp [do_GET, hst, hex0]
            refine ⟨fun s' p' hok h4 h6 => ?_, fun s' dta v hok h2 h3 hex hinsk => ?_,
              .inl (by rw [hR]), fun h500 => ?_⟩
            · have h1 : status = s' ∧ (Except.ok dta0 : Except Unit Json) = p' := by
                simpa using hok
              obtain ⟨heq, -⟩ := h1
              subst heq
              exact absurd ⟨h4, h6⟩ hst
            · have h1 : status = s' ∧ dta0 = dta := by simpa using hok
              obtain ⟨-, hd⟩ := h1
              rw [hd] at hex0
              rw [hex0] at hex
              have hv : v0 = v := by simpa using hex
              subst hv
              exact ⟨by rw [hR], by rw [hR]; exact hcnt v0⟩
            · rw [hR] at h500
              simp at h500

/-- Witness for C6: a 200 upstream response with body `\x7b\x7d` and a
working database insert yields a 200 success response mentioning count 0. -/
theorem do_GET_spec_witness :
    (do_GET ⟨.ok (200, .ok (.obj [])), true⟩ "T1" "T2" "E").status = 200 ∧
    pyInStr (pyStr (.num 0))
      (do_GET ⟨.ok (200, .ok (.obj [])), true⟩ "T1" "T2" "E").body = true :=
  (do_GET_spec ⟨.ok (200, .ok (.obj [])), true⟩ "T1" "T2" "E").2.1
    200 (.obj []) (.num 0) rfl (by omega) (by omega) rfl rfl
